import Mathlib

set_option maxRecDepth 8000

/-!
A shallow embedding of the two training drivers of this repository:
`src/rank/train_ce.py` (cross-encoder) and `src/train_de.py` (dual-encoder).

Each driver's `do_train` is embedded as a function from its CLI arguments and
its environment (worker rank, world size, a filesystem predicate, and the
number of batches the data loader yields per epoch) to the list of observable
events it performs, in program order.  Pure computations of the drivers
(step-count arithmetic, weight-decay parameter selection, the state effect of
checkpoint loading) are embedded as Lean functions over the same data.
-/

/-- Observable actions performed by `do_train`, listed in program order. -/
inductive Event where
  | setDevice (d : String)
  | initParallelEnv
  | setSeed (n : ℕ)
  | loadDataset (lazy : Bool)
  | loadPretrained (name : String)
  | loadCkpt (path : String)
  | fault
  | printMsg
  | createScaler (initScale : ℚ)
  | pullBatch
  | forward
  | computeLoss
  | computeMetric
  | backward (scaled : Bool)
  | fusedAllreduce
  | optStep (viaScaler : Bool)
  | lrStep
  | clearGrad
  | logLR (g : ℕ)
  | logTrain (g : ℕ)
  | ensureDir (dir : String)
  | saveParams (path : String)
  | saveTokenizer (dir : String)
  deriving DecidableEq, Repr

/-- CLI arguments of `src/rank/train_ce.py` (argparse block, lines 34-52). -/
structure CEArgs where
  save_dir : String
  train_set : String
  max_seq_length : ℕ
  batch_size : ℕ
  learning_rate : ℚ
  weight_decay : ℚ
  epochs : ℕ
  warmup_proportion : ℚ
  valid_steps : ℕ
  save_steps : ℕ
  logging_steps : ℕ
  init_from_ckpt : Option String
  seed : ℕ
  device : String
  use_amp : Bool
  scale_loss : ℚ

/-- CLI arguments of `src/train_de.py` (argparse block, lines 36-61). -/
structure DEArgs where
  save_dir : String
  query_max_seq_length : ℕ
  title_max_seq_length : ℕ
  batch_size : ℕ
  output_emb_size : Option ℕ
  learning_rate : ℚ
  weight_decay : ℚ
  epochs : ℕ
  warmup_proportion : ℚ
  init_from_ckpt : Option String
  seed : ℕ
  device : String
  save_steps : ℕ
  train_set_file : String
  use_cross_batch : Bool
  use_amp : Bool
  scale_loss : ℚ

/-- `os.path.join(save_dir, "model_%d" % global_step)` as used by both drivers. -/
def ckptDir (saveDir : String) (g : ℕ) : String :=
  saveDir ++ "/model_" ++ toString g

/-- `paddle.load(p)`: succeeds when the file exists, otherwise the process
faults with an uncaught exception. -/
def paddleLoadEvents (fs : String → Bool) (p : String) : List Event :=
  if fs p then [.loadCkpt p] else [.fault]

/-- `train_ce.py` lines 97-99: `if args.init_from_ckpt and
os.path.isfile(args.init_from_ckpt): state_dict = paddle.load(...);
model.set_dict(state_dict)`.  Python truthiness makes `None` and the empty
string skip the branch. -/
def ceLoadCkpt (args : CEArgs) (fs : String → Bool) : List Event :=
  match args.init_from_ckpt with
  | none => []
  | some p => if (p != "") && fs p then paddleLoadEvents fs p else []

/-- `train_de.py` lines 119-122: same guard, followed by a
`print("warmup from:...")`. -/
def deLoadCkpt (args : DEArgs) (fs : String → Bool) : List Event :=
  match args.init_from_ckpt with
  | none => []
  | some p => if (p != "") && fs p then paddleLoadEvents fs p ++ [.printMsg] else []

/-- Initialization phase of `train_ce.py` `do_train` before the epoch loop
(lines 63-131): device selection, optional parallel-env init, seeding,
non-lazy dataset load, pretrained model and tokenizer load, optional
checkpoint load, the four informational prints (lines 108-111), and the
scaler construction when `--use_amp` is on (lines 130-131). -/
def cePreamble (args : CEArgs) (world : ℕ) (fs : String → Bool) : List Event :=
  [.setDevice args.device]
  ++ (if world > 1 then [.initParallelEnv] else [])
  ++ [.setSeed args.seed, .loadDataset false,
      .loadPretrained "ernie-1.0", .loadPretrained "ernie-1.0"]
  ++ ceLoadCkpt args fs
  ++ [.printMsg, .printMsg, .printMsg, .printMsg]
  ++ (if args.use_amp then [.createScaler args.scale_loss] else [])

/-- One iteration of the inner loop of `train_ce.py` (lines 135-163), where
`g` is the value of `global_step` at iteration entry.  The body runs
forward, loss, metric, backward, optimizer step, schedule step and gradient
clearing unconditionally, increments `global_step`, then logs and saves at
their intervals, both gated on `rank == 0`.  Note that no fused gradient
exchange appears in this driver. -/
def ceStep (args : CEArgs) (rank : ℕ) (g : ℕ) : List Event :=
  [.pullBatch, .forward, .computeLoss, .computeMetric, .backward false,
   .optStep false, .lrStep, .clearGrad]
  ++ (if (g + 1) % args.logging_steps = 0 ∧ rank = 0 then
        [.logLR (g + 1), .logTrain (g + 1)] else [])
  ++ (if (g + 1) % args.save_steps = 0 ∧ rank = 0 then
        [.saveParams (ckptDir args.save_dir (g + 1) ++ "/model_state.pdparams"),
         .saveTokenizer (ckptDir args.save_dir (g + 1))] else [])

/-- The nested epoch/batch loop of `train_ce.py`: `global_step` starts at 0
and each of the `epochs * numBatches` iterations increments it by one. -/
def ceLoop (args : CEArgs) (rank : ℕ) (totalSteps : ℕ) : List Event :=
  ((List.range totalSteps).map fun i => ceStep args rank i).flatten

/-- `train_ce.py` lines 165-168: the unconditional final checkpoint, written
with no rank gate. -/
def ceFinalSave (args : CEArgs) (g : ℕ) : List Event :=
  [.saveParams (ckptDir args.save_dir g ++ "/model_state.pdparams"),
   .saveTokenizer (ckptDir args.save_dir g)]

/-- The whole observable behaviour of `train_ce.py` `do_train` for one worker
of rank `rank` among `world` workers, where the loader yields `numBatches`
batches per epoch. -/
def ceTrace (args : CEArgs) (rank world : ℕ) (fs : String → Bool)
    (numBatches : ℕ) : List Event :=
  cePreamble args world fs
  ++ ceLoop args rank (args.epochs * numBatches)
  ++ ceFinalSave args (args.epochs * numBatches)

/-- `train_de.py` lines 227-235: per-step checkpoint block, gated on the save
interval and `rank == 0`; it ensures the directory exists and writes the
query-model state, the title-model state and the tokenizer configuration. -/
def deSave (args : DEArgs) (rank : ℕ) (g : ℕ) : List Event :=
  if g % args.save_steps = 0 ∧ rank = 0 then
    [.ensureDir (ckptDir args.save_dir g),
     .saveParams (ckptDir args.save_dir g ++ "/query_model_state.pdparams"),
     .saveParams (ckptDir args.save_dir g ++ "/title_model_state.pdparams"),
     .saveTokenizer (ckptDir args.save_dir g)]
  else []

/-- One iteration of the inner loop of `train_de.py` (lines 168-235), where
`g` is the value of `global_step` at iteration entry.  In the AMP branch
(lines 172-198) the scaled loss is backpropagated, gradients are fused and
all-reduced, the update goes through `scaler.minimize`, and the hard-coded
ten-step logging (no rank gate) happens before the schedule step.  In the
non-AMP branch (lines 199-223) the ten-step logging (no rank gate) happens
before `loss.backward()`.  Both branches end with the schedule step, gradient
clearing and the rank-gated save block. -/
def deStep (args : DEArgs) (rank : ℕ) (g : ℕ) : List Event :=
  if args.use_amp then
    [.pullBatch, .forward, .computeLoss, .computeMetric, .backward true,
     .fusedAllreduce, .optStep true]
    ++ (if (g + 1) % 10 = 0 then [.logLR (g + 1), .logTrain (g + 1)] else [])
    ++ [.lrStep, .clearGrad]
    ++ deSave args rank (g + 1)
  else
    [.pullBatch, .forward, .computeLoss, .computeMetric]
    ++ (if (g + 1) % 10 = 0 then [.logLR (g + 1), .logTrain (g + 1)] else [])
    ++ [.backward false, .fusedAllreduce, .optStep false, .lrStep, .clearGrad]
    ++ deSave args rank (g + 1)

/-- The nested epoch/batch loop of `train_de.py`. -/
def deLoop (args : DEArgs) (rank : ℕ) (totalSteps : ℕ) : List Event :=
  ((List.range totalSteps).map fun i => deStep args rank i).flatten

/-- `train_de.py` lines 237-242: the unconditional final checkpoint, written
with no rank gate and no directory-existence check. -/
def deFinalSave (args : DEArgs) (g : ℕ) : List Event :=
  [.saveParams (ckptDir args.save_dir g ++ "/query_model_state.pdparams"),
   .saveParams (ckptDir args.save_dir g ++ "/title_model_state.pdparams"),
   .saveTokenizer (ckptDir args.save_dir g)]

/-- Initialization phase of `train_de.py` `do_train` before the epoch loop
(lines 72-161): device, optional parallel-env init, seeding, non-lazy dataset
load, the two backbone loads and the tokenizer load, optional checkpoint
load, the four informational prints (lines 132-135) and the scaler
construction when `--use_amp` is on (lines 155-161). -/
def dePreamble (args : DEArgs) (world : ℕ) (fs : String → Bool) : List Event :=
  [.setDevice args.device]
  ++ (if world > 1 then [.initParallelEnv] else [])
  ++ [.setSeed args.seed, .loadDataset false,
      .loadPretrained "ernie-1.0", .loadPretrained "ernie-1.0",
      .loadPretrained "ernie-1.0"]
  ++ deLoadCkpt args fs
  ++ [.printMsg, .printMsg, .printMsg, .printMsg]
  ++ (if args.use_amp then [.createScaler args.scale_loss] else [])

/-- The whole observable behaviour of `train_de.py` `do_train` for one
worker. -/
def deTrace (args : DEArgs) (rank world : ℕ) (fs : String → Bool)
    (numBatches : ℕ) : List Event :=
  dePreamble args world fs
  ++ deLoop args rank (args.epochs * numBatches)
  ++ deFinalSave args (args.epochs * numBatches)

/-- Log-line events. -/
def isLogEv : Event → Bool
  | .logLR _ => true
  | .logTrain _ => true
  | _ => false

/-- Checkpoint-writing events. -/
def isSaveEv : Event → Bool
  | .ensureDir _ => true
  | .saveParams _ => true
  | .saveTokenizer _ => true
  | _ => false

/-- Compute/optimizer operations of a training step. -/
def isCoreOp : Event → Bool
  | .pullBatch => true
  | .forward => true
  | .computeLoss => true
  | .computeMetric => true
  | .backward _ => true
  | .fusedAllreduce => true
  | .optStep _ => true
  | .lrStep => true
  | .clearGrad => true
  | _ => false

def isBackwardEv : Event → Bool
  | .backward _ => true
  | _ => false

def isOptStepEv : Event → Bool
  | .optStep _ => true
  | _ => false

def isLrStepEv : Event → Bool
  | .lrStep => true
  | _ => false

def isMetricEv : Event → Bool
  | .computeMetric => true
  | _ => false

def isClearGradEv : Event → Bool
  | .clearGrad => true
  | _ => false

/-- Events that can appear in the initialization phase of either driver. -/
def preambleLike : Event → Bool
  | .setDevice _ => true
  | .initParallelEnv => true
  | .setSeed _ => true
  | .loadDataset _ => true
  | .loadPretrained _ => true
  | .loadCkpt _ => true
  | .fault => true
  | .printMsg => true
  | .createScaler _ => true
  | _ => false

/-- `epochs * num_training_examples // batch_size // dev_count`
(`train_ce.py` line 104). -/
def ceMaxTrainSteps (args : CEArgs) (numEx devCount : ℕ) : ℕ :=
  args.epochs * numEx / args.batch_size / devCount

/-- `epochs * num_training_examples // batch_size // dev_count`
(`train_de.py` line 128). -/
def deMaxTrainSteps (args : DEArgs) (numEx devCount : ℕ) : ℕ :=
  args.epochs * numEx / args.batch_size / devCount

/-- Python `int(...)` on a rational: truncation toward zero. -/
def pyInt (x : ℚ) : ℤ :=
  if 0 ≤ x then ⌊x⌋ else ⌈x⌉

/-- `int(max_train_steps * args.warmup_proportion)` (`train_ce.py` line 106). -/
def ceWarmupSteps (args : CEArgs) (numEx devCount : ℕ) : ℤ :=
  pyInt ((ceMaxTrainSteps args numEx devCount : ℚ) * args.warmup_proportion)

/-- `int(max_train_steps * args.warmup_proportion)` (`train_de.py` line 130). -/
def deWarmupSteps (args : DEArgs) (numEx devCount : ℕ) : ℤ :=
  pyInt ((deMaxTrainSteps args numEx devCount : ℚ) * args.warmup_proportion)

/-- The claim's own formula for the total step count, written from the words
of C7 for comparison with the transcribed driver computations. -/
def claimMaxTrainSteps (epochs numEx batchSize worldSize : ℕ) : ℕ :=
  epochs * numEx / batchSize / worldSize

/-- The claim's own formula for the warmup step count. -/
def claimWarmupSteps (maxSteps : ℕ) (prop : ℚ) : ℤ :=
  pyInt ((maxSteps : ℚ) * prop)

/-- Python `s1 in s2` prefix helper over character lists. -/
def listPre : List Char → List Char → Bool
  | [], _ => true
  | _ :: _, [] => false
  | c :: cs, d :: ds => c == d && listPre cs ds

/-- Python `sub in s` substring test over character lists. -/
def listSub (sub : List Char) : List Char → Bool
  | [] => listPre sub []
  | d :: ds => listPre sub (d :: ds) || listSub sub ds

/-- Python's substring operator `sub in s` on strings. -/
def pyIn (sub s : String) : Bool :=
  listSub sub.data s.data

/-- `train_ce.py` lines 117-120 and `train_de.py` lines 145-148: the list of
parameter names receiving weight decay.  A model parameter is a pair of its
`named_parameters()` key `n` and its `p.name` attribute; the comprehension
keeps `p.name` for every parameter whose key contains neither `"bias"` nor
`"norm"`. -/
def decayParams (params : List (String × String)) : List String :=
  (params.filter fun np => !(["bias", "norm"].any fun nd => pyIn nd np.1)).map
    Prod.snd

/-- `apply_decay_param_fun=lambda x: x in decay_params` (`train_ce.py` line
125, `train_de.py` line 153). -/
def applyDecayParamFun (dps : List String) (x : String) : Bool :=
  dps.contains x

/-- A model's parameter store, abstracted as a map from parameter name to
value. -/
def ParamDict := String → ℚ

/-- AdamW optimizer state: per-parameter first and second moments plus the
schedule step counter. -/
structure OptState where
  moment1 : String → ℚ
  moment2 : String → ℚ
  schedStep : ℕ

/-- The state a freshly constructed AdamW optimizer and scheduler start
from. -/
def freshOptState : OptState :=
  { moment1 := fun _ => 0, moment2 := fun _ => 0, schedStep := 0 }

/-- `model.set_dict(state_dict)`: parameters present in the loaded dict are
overwritten, the rest keep their pretrained values. -/
def setDict (pre : ParamDict) (sd : List (String × ℚ)) : ParamDict :=
  fun n =>
    match sd.find? fun kv => kv.fst == n with
    | some kv => kv.snd
    | none => pre n

/-- Model and optimizer state after driver initialization. -/
structure InitState where
  modelParams : ParamDict
  optState : OptState

/-- State effect of `train_ce.py` initialization: the guarded checkpoint load
(lines 97-99) runs before the optimizer is constructed (line 121), so the
optimizer always starts fresh. -/
def ceInitState (args : CEArgs) (fs : String → Bool)
    (ckpt : String → List (String × ℚ)) (pre : ParamDict) : InitState :=
  { modelParams :=
      match args.init_from_ckpt with
      | none => pre
      | some p => if (p != "") && fs p then setDict pre (ckpt p) else pre,
    optState := freshOptState }

/-- State effect of `train_de.py` initialization: the guarded checkpoint load
(lines 119-121) runs before the optimizer is constructed (line 149). -/
def deInitState (args : DEArgs) (fs : String → Bool)
    (ckpt : String → List (String × ℚ)) (pre : ParamDict) : InitState :=
  { modelParams :=
      match args.init_from_ckpt with
      | none => pre
      | some p => if (p != "") && fs p then setDict pre (ckpt p) else pre,
    optState := freshOptState }

/-- Modelled from the spec: the `LinearDecayWithWarmup` scheduler constructed
at `train_de.py` lines 140-141 lives in the external `paddlenlp` package and
is not under `src/`.  The spec describes it as a "Warmup schedule: learning
rate ramps linearly from zero to base rate, then decays" reaching the
configured end value (zero) by the final step; the learning rate at step `s`
is the base rate times `s / warmup` during warmup, and times
`max 0 ((total - s) / (total - warmup))` afterwards. -/
def linearDecayWithWarmup (base : ℚ) (total warmup : ℕ) (s : ℕ) : ℚ :=
  if s < warmup then base * ((s : ℚ) / (warmup : ℚ))
  else base * max 0 (((total : ℚ) - (s : ℚ)) / ((total : ℚ) - (warmup : ℚ)))

/-- Modelled from the spec: the `PolyDecayWithWarmup` scheduler constructed at
`train_ce.py` line 113 with `lr_end=0.0, power=1.0` lives in the external
`paddlenlp` package and is not under `src/`.  With power one it ramps
linearly to the base rate during warmup and then decays linearly to `lrEnd`
at the final step. -/
def polyDecayWithWarmup (base lrEnd : ℚ) (total warmup : ℕ) (s : ℕ) : ℚ :=
  if s < warmup then base * ((s : ℚ) / (warmup : ℚ))
  else if total < s then lrEnd
  else (base - lrEnd) * (((total : ℚ) - (s : ℚ)) / ((total : ℚ) - (warmup : ℚ)))
       + lrEnd

/-- A filesystem on which no path exists. -/
def fsNone : String → Bool := fun _ => false

/-- A filesystem on which every path exists. -/
def fsAll : String → Bool := fun _ => true

/-- Concrete cross-encoder arguments (the argparse defaults, small epochs). -/
def ceArgs0 : CEArgs :=
  { save_dir := "./checkpoint", train_set := "train.tsv", max_seq_length := 128,
    batch_size := 32, learning_rate := 5 / 100000, weight_decay := 0,
    epochs := 1, warmup_proportion := 0, valid_steps := 100, save_steps := 100,
    logging_steps := 10, init_from_ckpt := none, seed := 1000, device := "gpu",
    use_amp := false, scale_loss := 32768 }

/-- Cross-encoder arguments with `--use_amp True`. -/
def ceArgsAmp : CEArgs :=
  { ceArgs0 with use_amp := true }

/-- Cross-encoder arguments naming a missing checkpoint file. -/
def ceArgsMiss : CEArgs :=
  { ceArgs0 with init_from_ckpt := some "missing.pdparams" }

/-- Concrete dual-encoder arguments (the argparse defaults, small epochs). -/
def deArgs0 : DEArgs :=
  { save_dir := "./checkpoint", query_max_seq_length := 32,
    title_max_seq_length := 128, batch_size := 32, output_emb_size := none,
    learning_rate := 3 / 100000, weight_decay := 0, epochs := 1,
    warmup_proportion := 0, init_from_ckpt := none, seed := 1000,
    device := "gpu", save_steps := 10000, train_set_file := "train.tsv",
    use_cross_batch := false, use_amp := false, scale_loss := 102400 }

/-- A concrete parameter list for the weight-decay witness. -/
def params0 : List (String × String) :=
  [("encoder.layers.0.linear.bias", "p0"),
   ("encoder.layers.0.linear.weight", "p1"),
   ("encoder.layers.0.norm1.weight", "p2")]

/-- Cross-encoder arguments that log and save at every step. -/
def ceArgs1 : CEArgs :=
  { ceArgs0 with save_steps := 1, logging_steps := 1 }

/-- Dual-encoder arguments that save at every step. -/
def deArgs1 : DEArgs :=
  { deArgs0 with save_steps := 1 }

/-- Dual-encoder arguments with `--use_amp`. -/
def deArgsAmp : DEArgs :=
  { deArgs0 with use_amp := true }

/-- Dual-encoder arguments naming a missing checkpoint file. -/
def deArgsMiss : DEArgs :=
  { deArgs0 with init_from_ckpt := some "missing.pdparams" }

/-- Cross-encoder arguments naming an existing checkpoint file. -/
def ceArgsCk : CEArgs :=
  { ceArgs0 with init_from_ckpt := some "ck.pdparams" }

/-- Dual-encoder arguments naming an existing checkpoint file. -/
def deArgsCk : DEArgs :=
  { deArgs0 with init_from_ckpt := some "ck.pdparams" }

/-- A concrete pretrained parameter store. -/
def pre0 : ParamDict := fun _ => 0

/-- A concrete checkpoint content map. -/
def ckpt0 : String → List (String × ℚ) := fun _ => [("w", 1)]

/-! ### Helper lemmas about the embedded traces -/

theorem preambleLike_spec (e : Event) (h : preambleLike e = true) :
    isSaveEv e = false ∧ isLogEv e = false ∧ isCoreOp e = false := by
  cases e <;> simp_all [preambleLike, isSaveEv, isLogEv, isCoreOp]

theorem coreOp_spec (e : Event) (h : isCoreOp e = true) :
    isSaveEv e = false ∧ isLogEv e = false := by
  cases e <;> simp_all [isCoreOp, isSaveEv, isLogEv]

theorem ceLoadCkpt_all (args : CEArgs) (fs : String → Bool) :
    ∀ x ∈ ceLoadCkpt args fs, preambleLike x = true := by
  intro x hx
  unfold ceLoadCkpt paddleLoadEvents at hx
  split at hx
  · simp at hx
  · split at hx
    · split at hx <;> (simp at hx; subst hx; rfl)
    · simp at hx

theorem deLoadCkpt_all (args : DEArgs) (fs : String → Bool) :
    ∀ x ∈ deLoadCkpt args fs, preambleLike x = true := by
  intro x hx
  unfold deLoadCkpt paddleLoadEvents at hx
  split at hx
  · simp at hx
  · split at hx
    · rcases List.mem_append.1 hx with hx | hx
      · split at hx <;> (simp at hx; subst hx; rfl)
      · simp at hx; subst hx; rfl
    · simp at hx

theorem mem_cePreamble {args : CEArgs} {world : ℕ} {fs : String → Bool}
    {e : Event} (h : e ∈ cePreamble args world fs) : preambleLike e = true := by
  unfold cePreamble at h
  rcases List.mem_append.1 h with h | h
  · rcases List.mem_append.1 h with h | h
    · rcases List.mem_append.1 h with h | h
      · rcases List.mem_append.1 h with h | h
        · rcases List.mem_append.1 h with h | h
          · simp at h; subst h; rfl
          · split at h <;> simp at h <;> (subst h; rfl)
        · simp at h; rcases h with rfl | rfl | rfl | rfl <;> rfl
      · exact ceLoadCkpt_all args fs e h
    · simp at h; rcases h with rfl | rfl | rfl | rfl <;> rfl
  · split at h <;> simp at h <;> (subst h; rfl)

theorem mem_dePreamble {args : DEArgs} {world : ℕ} {fs : String → Bool}
    {e : Event} (h : e ∈ dePreamble args world fs) : preambleLike e = true := by
  unfold dePreamble at h
  rcases List.mem_append.1 h with h | h
  · rcases List.mem_append.1 h with h | h
    · rcases List.mem_append.1 h with h | h
      · rcases List.mem_append.1 h with h | h
        · rcases List.mem_append.1 h with h | h
          · simp at h; subst h; rfl
          · split at h <;> simp at h <;> (subst h; rfl)
        · simp at h; rcases h with rfl | rfl | rfl | rfl | rfl <;> rfl
      · exact deLoadCkpt_all args fs e h
    · simp at h; rcases h with rfl | rfl | rfl | rfl <;> rfl
  · split at h <;> simp at h <;> (subst h; rfl)

theorem mem_ceLoop {args : CEArgs} {rank n : ℕ} {e : Event} :
    e ∈ ceLoop args rank n ↔ ∃ i, i < n ∧ e ∈ ceStep args rank i := by
  simp [ceLoop, List.mem_flatten]

theorem mem_deLoop {args : DEArgs} {rank n : ℕ} {e : Event} :
    e ∈ deLoop args rank n ↔ ∃ i, i < n ∧ e ∈ deStep args rank i := by
  simp [deLoop, List.mem_flatten]

theorem mem_ceStep_cases {args : CEArgs} {rank g : ℕ} {e : Event}
    (h : e ∈ ceStep args rank g) :
    isCoreOp e = true
    ∨ ((g + 1) % args.logging_steps = 0 ∧ rank = 0 ∧
        (e = .logLR (g + 1) ∨ e = .logTrain (g + 1)))
    ∨ ((g + 1) % args.save_steps = 0 ∧ rank = 0 ∧
        (e = .saveParams (ckptDir args.save_dir (g + 1) ++ "/model_state.pdparams") ∨
         e = .saveTokenizer (ckptDir args.save_dir (g + 1)))) := by
  unfold ceStep at h
  rcases List.mem_append.1 h with h | h
  · rcases List.mem_append.1 h with h | h
    · refine Or.inl ?_
      simp at h
      rcases h with rfl | rfl | rfl | rfl | rfl | rfl | rfl | rfl <;> rfl
    · split at h
      · rename_i hc
        exact Or.inr (Or.inl ⟨hc.1, hc.2, by simpa using h⟩)
      · simp at h
  · split at h
    · rename_i hc
      exact Or.inr (Or.inr ⟨hc.1, hc.2, by simpa using h⟩)
    · simp at h

theorem mem_deStep_cases {args : DEArgs} {rank g : ℕ} {e : Event}
    (h : e ∈ deStep args rank g) :
    isCoreOp e = true
    ∨ ((g + 1) % 10 = 0 ∧ (e = .logLR (g + 1) ∨ e = .logTrain (g + 1)))
    ∨ ((g + 1) % args.save_steps = 0 ∧ rank = 0 ∧
        (e = .ensureDir (ckptDir args.save_dir (g + 1)) ∨
         e = .saveParams (ckptDir args.save_dir (g + 1) ++ "/query_model_state.pdparams") ∨
         e = .saveParams (ckptDir args.save_dir (g + 1) ++ "/title_model_state.pdparams") ∨
         e = .saveTokenizer (ckptDir args.save_dir (g + 1)))) := by
  unfold deStep at h
  split at h
  · rcases List.mem_append.1 h with h | h
    · rcases List.mem_append.1 h with h | h
      · rcases List.mem_append.1 h with h | h
        · refine Or.inl ?_
          simp at h
          rcases h with rfl | rfl | rfl | rfl | rfl | rfl | rfl <;> rfl
        · split at h
          · rename_i hc
            exact Or.inr (Or.inl ⟨hc, by simpa using h⟩)
          · simp at h
      · refine Or.inl ?_
        simp at h
        rcases h with rfl | rfl <;> rfl
    · unfold deSave at h
      split at h
      · rename_i hc
        exact Or.inr (Or.inr ⟨hc.1, hc.2, by simpa using h⟩)
      · simp at h
  · rcases List.mem_append.1 h with h | h
    · rcases List.mem_append.1 h with h | h
      · rcases List.mem_append.1 h with h | h
        · refine Or.inl ?_
          simp at h
          rcases h with rfl | rfl | rfl | rfl <;> rfl
        · split at h
          · rename_i hc
            exact Or.inr (Or.inl ⟨hc, by simpa using h⟩)
          · simp at h
      · refine Or.inl ?_
        simp at h
        rcases h with rfl | rfl | rfl | rfl | rfl <;> rfl
    · unfold deSave at h
      split at h
      · rename_i hc
        exact Or.inr (Or.inr ⟨hc.1, hc.2, by simpa using h⟩)
      · simp at h

theorem ceStep_saves (args : CEArgs) (g : ℕ)
    (hc : (g + 1) % args.save_steps = 0) :
    Event.saveParams (ckptDir args.save_dir (g + 1) ++ "/model_state.pdparams")
        ∈ ceStep args 0 g ∧
    Event.saveTokenizer (ckptDir args.save_dir (g + 1)) ∈ ceStep args 0 g := by
  unfold ceStep
  constructor <;>
  · refine List.mem_append.2 (Or.inr ?_)
    rw [if_pos ⟨hc, rfl⟩]
    simp

theorem deStep_saves (args : DEArgs) (g : ℕ)
    (hc : (g + 1) % args.save_steps = 0) :
    Event.saveParams (ckptDir args.save_dir (g + 1) ++ "/query_model_state.pdparams")
        ∈ deStep args 0 g ∧
    Event.saveParams (ckptDir args.save_dir (g + 1) ++ "/title_model_state.pdparams")
        ∈ deStep args 0 g ∧
    Event.saveTokenizer (ckptDir args.save_dir (g + 1)) ∈ deStep args 0 g := by
  have hmem : ∀ x ∈ deSave args 0 (g + 1), x ∈ deStep args 0 g := by
    intro x hx
    unfold deStep
    split <;> exact List.mem_append.2 (Or.inr hx)
  refine ⟨hmem _ ?_, hmem _ ?_, hmem _ ?_⟩ <;>
  · unfold deSave
    rw [if_pos ⟨hc, rfl⟩]
    simp

/-! ### Claim theorems -/

/-- C1 counterexample: with two workers, the rank-1 worker of the dual-encoder
driver prints the step-10 log line, and the rank-1 worker of the cross-encoder
driver writes the final checkpoint — contradicting the claim that a worker
with non-zero rank never prints a log line and never writes a checkpoint. -/
theorem rank_gating_cex :
    Event.logTrain 10 ∈ deTrace deArgs0 1 2 fsNone 10 ∧
    Event.saveTokenizer (ckptDir "./checkpoint" 3) ∈ ceTrace ceArgs0 1 2 fsNone 3 := by
  decide

/-- C1 (corrected): per-step checkpoint writes are gated on rank 0 in both
drivers and per-step log lines are gated on rank 0 in the cross-encoder
driver; but the dual-encoder driver prints its per-step log lines on every
worker, and both drivers write the final checkpoint on every worker. -/
theorem rank_gating_amended :
    (∀ (args : CEArgs) (rank n : ℕ) (e : Event),
       e ∈ ceLoop args rank n → isSaveEv e = true ∨ isLogEv e = true → rank = 0)
  ∧ (∀ (args : DEArgs) (rank n : ℕ) (e : Event),
       e ∈ deLoop args rank n → isSaveEv e = true → rank = 0)
  ∧ (∀ (args : DEArgs) (rank n : ℕ),
       10 ≤ n → Event.logTrain 10 ∈ deLoop args rank n)
  ∧ (∀ (ca : CEArgs) (rank world nB : ℕ) (fs : String → Bool),
       Event.saveTokenizer (ckptDir ca.save_dir (ca.epochs * nB))
         ∈ ceTrace ca rank world fs nB)
  ∧ (∀ (da : DEArgs) (rank world nB : ℕ) (fs : String → Bool),
       Event.saveTokenizer (ckptDir da.save_dir (da.epochs * nB))
         ∈ deTrace da rank world fs nB) := by
  refine ⟨?_, ?_, ?_, ?_, ?_⟩
  · intro args rank n e hmem hev
    obtain ⟨i, _, hstep⟩ := mem_ceLoop.1 hmem
    rcases mem_ceStep_cases hstep with hcore | ⟨_, hr, _⟩ | ⟨_, hr, _⟩
    · have hspec := coreOp_spec e hcore
      rcases hev with hev | hev
      · rw [hspec.1] at hev; exact absurd hev (by simp)
      · rw [hspec.2] at hev; exact absurd hev (by simp)
    · exact hr
    · exact hr
  · intro args rank n e hmem hev
    obtain ⟨i, _, hstep⟩ := mem_deLoop.1 hmem
    rcases mem_deStep_cases hstep with hcore | ⟨_, he⟩ | ⟨_, hr, _⟩
    · have hspec := coreOp_spec e hcore
      rw [hspec.1] at hev; exact absurd hev (by simp)
    · rcases he with rfl | rfl <;> simp [isSaveEv] at hev
    · exact hr
  · intro args rank n hn
    refine mem_deLoop.2 ⟨9, by omega, ?_⟩
    unfold deStep
    split <;>
    · refine List.mem_append.2 (Or.inl ?_)
      refine List.mem_append.2 (Or.inl ?_)
      refine List.mem_append.2 (Or.inr ?_)
      rw [if_pos (by norm_num)]
      simp
  · intro ca rank world nB fs
    refine List.mem_append.2 (Or.inr ?_)
    simp [ceFinalSave]
  · intro da rank world nB fs
    refine List.mem_append.2 (Or.inr ?_)
    simp [deFinalSave]

/-- Witness for the amended C1 theorem: the rank-0 cross-encoder worker's
loop does emit a checkpoint write, and the gating conclusion holds there. -/
theorem rank_gating_amended_wit :
    (Event.saveTokenizer (ckptDir "./checkpoint" 1) ∈ ceLoop ceArgs1 0 1 ∧
     isSaveEv (Event.saveTokenizer (ckptDir "./checkpoint" 1)) = true) ∧
    (0 : ℕ) = 0 :=
  ⟨⟨by decide, by decide⟩,
   rank_gating_amended.1 ceArgs1 0 1 (Event.saveTokenizer (ckptDir "./checkpoint" 1))
     (by decide) (Or.inl (by decide))⟩

/-- C2 (code bug): run `train_ce.py` with `--use_amp True`.  The driver
constructs the gradient scaler, but every step backpropagates the unscaled
loss and steps the optimizer directly, never through the scaler; the
dual-encoder driver under `--use_amp` does scale the loss and route the
update through the scaler. -/
theorem ce_amp_scaler_unused :
    Event.createScaler 32768 ∈ ceTrace ceArgsAmp 0 1 fsNone 3 ∧
    Event.backward false ∈ ceTrace ceArgsAmp 0 1 fsNone 3 ∧
    Event.optStep false ∈ ceTrace ceArgsAmp 0 1 fsNone 3 ∧
    Event.backward true ∉ ceTrace ceArgsAmp 0 1 fsNone 3 ∧
    Event.optStep true ∉ ceTrace ceArgsAmp 0 1 fsNone 3 ∧
    Event.backward true ∈ deTrace deArgsAmp 0 1 fsNone 3 ∧
    Event.optStep true ∈ deTrace deArgsAmp 0 1 fsNone 3 := by
  decide

/-- C3 counterexample: the cross-encoder driver issues no fused gradient
exchange even in distributed mode (two workers), and in the dual-encoder
driver without AMP the step-10 log line is printed before the backward
pass — contradicting the claimed per-step operation order. -/
theorem step_order_cex :
    Event.fusedAllreduce ∉ ceTrace ceArgs0 1 2 fsNone 3 ∧
    (deStep deArgs0 0 9).indexOf (Event.logTrain 10) <
      (deStep deArgs0 0 9).indexOf (Event.backward false) := by
  decide

/-- C3 (corrected): the per-step operation order actually implemented.  The
cross-encoder driver runs pull batch, forward, loss, metric, backward,
optimizer step, schedule step, gradient zeroing — with no fused gradient
exchange — and only then conditional logging followed by conditional
checkpointing.  The dual-encoder driver does issue the fused gradient
exchange between backward and optimizer step, and its conditional
checkpointing does follow gradient zeroing (last conjunct, both branches),
but its conditional logging is not last: with AMP it runs between the
optimizer step and the schedule step, and without AMP it runs after the
loss/metric computation and before the backward pass. -/
theorem step_order_amended :
    (∀ (ca : CEArgs) (rank g : ℕ),
       (ceStep ca rank g).filter isCoreOp =
         [.pullBatch, .forward, .computeLoss, .computeMetric, .backward false,
          .optStep false, .lrStep, .clearGrad])
  ∧ (∀ (da : DEArgs) (rank g : ℕ), da.use_amp = true →
       (deStep da rank g).filter isCoreOp =
         [.pullBatch, .forward, .computeLoss, .computeMetric, .backward true,
          .fusedAllreduce, .optStep true, .lrStep, .clearGrad])
  ∧ (∀ (da : DEArgs) (rank g : ℕ), da.use_amp = false →
       (deStep da rank g).filter isCoreOp =
         [.pullBatch, .forward, .computeLoss, .computeMetric, .backward false,
          .fusedAllreduce, .optStep false, .lrStep, .clearGrad])
  ∧ (∀ (ca : CEArgs) (g : ℕ),
       (g + 1) % ca.logging_steps = 0 → (g + 1) % ca.save_steps = 0 →
       (ceStep ca 0 g).filter (fun e => isLogEv e || isSaveEv e || isClearGradEv e) =
         [.clearGrad, .logLR (g + 1), .logTrain (g + 1),
          .saveParams (ckptDir ca.save_dir (g + 1) ++ "/model_state.pdparams"),
          .saveTokenizer (ckptDir ca.save_dir (g + 1))])
  ∧ (∀ (da : DEArgs) (rank g : ℕ), da.use_amp = true → (g + 1) % 10 = 0 →
       (deStep da rank g).filter (fun e => isLogEv e || isOptStepEv e || isLrStepEv e) =
         [.optStep true, .logLR (g + 1), .logTrain (g + 1), .lrStep])
  ∧ (∀ (da : DEArgs) (rank g : ℕ), da.use_amp = false → (g + 1) % 10 = 0 →
       (deStep da rank g).filter (fun e => isLogEv e || isMetricEv e || isBackwardEv e) =
         [.computeMetric, .logLR (g + 1), .logTrain (g + 1), .backward false])
  ∧ (∀ (da : DEArgs) (g : ℕ), (g + 1) % da.save_steps = 0 →
       (deStep da 0 g).filter (fun e => isSaveEv e || isClearGradEv e) =
         [.clearGrad, .ensureDir (ckptDir da.save_dir (g + 1)),
          .saveParams (ckptDir da.save_dir (g + 1) ++ "/query_model_state.pdparams"),
          .saveParams (ckptDir da.save_dir (g + 1) ++ "/title_model_state.pdparams"),
          .saveTokenizer (ckptDir da.save_dir (g + 1))]) := by
  refine ⟨?_, ?_, ?_, ?_, ?_, ?_, ?_⟩
  · intro ca rank g
    unfold ceStep
    rcases Nat.decEq ((g + 1) % ca.logging_steps) 0 with h1 | h1 <;>
    rcases Nat.decEq ((g + 1) % ca.save_steps) 0 with h2 | h2 <;>
    rcases Nat.decEq rank 0 with h3 | h3 <;>
      simp [h1, h2, h3, isCoreOp, List.filter_append]
  · intro da rank g ha
    unfold deStep deSave
    rcases Nat.decEq ((g + 1) % 10) 0 with h1 | h1 <;>
    rcases Nat.decEq ((g + 1) % da.save_steps) 0 with h2 | h2 <;>
    rcases Nat.decEq rank 0 with h3 | h3 <;>
      simp [ha, h1, h2, h3, isCoreOp, List.filter_append]
  · intro da rank g ha
    unfold deStep deSave
    rcases Nat.decEq ((g + 1) % 10) 0 with h1 | h1 <;>
    rcases Nat.decEq ((g + 1) % da.save_steps) 0 with h2 | h2 <;>
    rcases Nat.decEq rank 0 with h3 | h3 <;>
      simp [ha, h1, h2, h3, isCoreOp, List.filter_append]
  · intro ca g h1 h2
    unfold ceStep
    simp [h1, h2, isLogEv, isSaveEv, isClearGradEv, List.filter_append]
  · intro da rank g ha h1
    unfold deStep deSave
    rcases Nat.decEq ((g + 1) % da.save_steps) 0 with h2 | h2 <;>
    rcases Nat.decEq rank 0 with h3 | h3 <;>
      simp [ha, h1, h2, h3, isLogEv, isOptStepEv, isLrStepEv, List.filter_append]
  · intro da rank g ha h1
    unfold deStep deSave
    rcases Nat.decEq ((g + 1) % da.save_steps) 0 with h2 | h2 <;>
    rcases Nat.decEq rank 0 with h3 | h3 <;>
      simp [ha, h1, h2, h3, isLogEv, isMetricEv, isBackwardEv, List.filter_append]
  · intro da g h2
    unfold deStep deSave
    split <;>
    rcases Nat.decEq ((g + 1) % 10) 0 with h1 | h1 <;>
      simp [h1, h2, isSaveEv, isClearGradEv, List.filter_append]

/-- Witness for the amended C3 theorem at a concrete step of each driver. -/
theorem step_order_amended_wit :
    (deArgsAmp.use_amp = true ∧ deArgs0.use_amp = false ∧
     (9 + 1) % ceArgs1.logging_steps = 0 ∧ (9 + 1) % ceArgs1.save_steps = 0 ∧
     (9 + 1) % 10 = 0) ∧
    (deStep deArgsAmp 0 9).filter (fun e => isLogEv e || isOptStepEv e || isLrStepEv e) =
      [.optStep true, .logLR 10, .logTrain 10, .lrStep] ∧
    (deStep deArgs0 0 9).filter (fun e => isLogEv e || isMetricEv e || isBackwardEv e) =
      [.computeMetric, .logLR 10, .logTrain 10, .backward false] ∧
    (ceStep ceArgs1 0 9).filter (fun e => isLogEv e || isSaveEv e || isClearGradEv e) =
      [.clearGrad, .logLR 10, .logTrain 10,
       .saveParams (ckptDir "./checkpoint" 10 ++ "/model_state.pdparams"),
       .saveTokenizer (ckptDir "./checkpoint" 10)] ∧
    (deStep deArgs1 0 9).filter (fun e => isSaveEv e || isClearGradEv e) =
      [.clearGrad, .ensureDir (ckptDir "./checkpoint" 10),
       .saveParams (ckptDir "./checkpoint" 10 ++ "/query_model_state.pdparams"),
       .saveParams (ckptDir "./checkpoint" 10 ++ "/title_model_state.pdparams"),
       .saveTokenizer (ckptDir "./checkpoint" 10)] :=
  ⟨⟨by decide, by decide, by decide, by decide, by decide⟩,
   step_order_amended.2.2.2.2.1 deArgsAmp 0 9 (by decide) (by decide),
   step_order_amended.2.2.2.2.2.1 deArgs0 0 9 (by decide) (by decide),
   step_order_amended.2.2.2.1 ceArgs1 9 (by decide) (by decide),
   step_order_amended.2.2.2.2.2.2 deArgs1 9 (by decide)⟩

/-- C4 counterexample: when `--init_from_ckpt` names a missing file, neither
driver faults: no checkpoint is loaded, no fault event occurs, and training
proceeds — contradicting the claim that the run terminates with an uncaught
fault. -/
theorem missing_ckpt_cex :
    Event.fault ∉ ceTrace ceArgsMiss 0 1 fsNone 3 ∧
    Event.loadCkpt "missing.pdparams" ∉ ceTrace ceArgsMiss 0 1 fsNone 3 ∧
    Event.pullBatch ∈ ceTrace ceArgsMiss 0 1 fsNone 3 ∧
    Event.fault ∉ deTrace deArgsMiss 0 1 fsNone 3 ∧
    Event.loadCkpt "missing.pdparams" ∉ deTrace deArgsMiss 0 1 fsNone 3 ∧
    Event.pullBatch ∈ deTrace deArgsMiss 0 1 fsNone 3 := by
  decide

/-- C4 (corrected): when `--init_from_ckpt` names a missing checkpoint file,
the existence guard silently skips the load, and the run behaves exactly as
if the flag had not been passed: training continues with the pretrained
initialization. -/
theorem missing_ckpt_amended (ca : CEArgs) (da : DEArgs) (p q : String)
    (rank world nB : ℕ) (fs : String → Bool)
    (hca : ca.init_from_ckpt = some p) (hfp : fs p = false)
    (hda : da.init_from_ckpt = some q) (hfq : fs q = false) :
    ceTrace ca rank world fs nB =
      ceTrace { ca with init_from_ckpt := none } rank world fs nB ∧
    deTrace da rank world fs nB =
      deTrace { da with init_from_ckpt := none } rank world fs nB := by
  constructor
  · simp [ceTrace, cePreamble, ceLoadCkpt, hca, hfp, ceLoop, ceStep, ceFinalSave]
  · simp [deTrace, dePreamble, deLoadCkpt, hda, hfq, deLoop, deStep, deSave,
      deFinalSave]

/-- Witness for the amended C4 theorem at the concrete missing-file setup. -/
theorem missing_ckpt_amended_wit :
    (ceArgsMiss.init_from_ckpt = some "missing.pdparams" ∧
     fsNone "missing.pdparams" = false ∧
     deArgsMiss.init_from_ckpt = some "missing.pdparams") ∧
    ceTrace ceArgsMiss 0 1 fsNone 3 =
      ceTrace { ceArgsMiss with init_from_ckpt := none } 0 1 fsNone 3 :=
  ⟨⟨rfl, rfl, rfl⟩,
   (missing_ckpt_amended ceArgsMiss deArgsMiss "missing.pdparams"
     "missing.pdparams" 0 1 3 fsNone rfl rfl rfl rfl).1⟩

/-- C6 (confirmed): when `--init_from_ckpt` names an existing file, loading
it changes only the model parameters; the optimizer state, which is created
afterwards, is the freshly initialized one and nothing of the checkpoint
reaches it. -/
theorem init_ckpt_frame (ca : CEArgs) (da : DEArgs) (fs : String → Bool)
    (ckpt : String → List (String × ℚ)) (pre : ParamDict) (p q : String)
    (hca : ca.init_from_ckpt = some p) (hp : ((p != "") && fs p) = true)
    (hda : da.init_from_ckpt = some q) (hq : ((q != "") && fs q) = true) :
    (ceInitState ca fs ckpt pre).modelParams = setDict pre (ckpt p)
    ∧ (ceInitState ca fs ckpt pre).optState = freshOptState
    ∧ (deInitState da fs ckpt pre).modelParams = setDict pre (ckpt q)
    ∧ (deInitState da fs ckpt pre).optState = freshOptState := by
  refine ⟨?_, rfl, ?_, rfl⟩ <;> simp [ceInitState, deInitState, hca, hp, hda, hq]

/-- Witness for the C6 theorem at a concrete existing-checkpoint setup. -/
theorem init_ckpt_frame_wit :
    (ceArgsCk.init_from_ckpt = some "ck.pdparams" ∧
     (("ck.pdparams" != "") && fsAll "ck.pdparams") = true ∧
     deArgsCk.init_from_ckpt = some "ck.pdparams") ∧
    (ceInitState ceArgsCk fsAll ckpt0 pre0).modelParams =
      setDict pre0 (ckpt0 "ck.pdparams") ∧
    (ceInitState ceArgsCk fsAll ckpt0 pre0).optState = freshOptState :=
  ⟨⟨rfl, rfl, rfl⟩,
   (init_ckpt_frame ceArgsCk deArgsCk fsAll ckpt0 pre0 "ck.pdparams"
     "ck.pdparams" rfl rfl rfl rfl).1,
   (init_ckpt_frame ceArgsCk deArgsCk fsAll ckpt0 pre0 "ck.pdparams"
     "ck.pdparams" rfl rfl rfl rfl).2.1⟩

/-- C10 (confirmed): `--valid_steps` of the cross-encoder driver and
`--output_emb_size` of the dual-encoder driver are parsed but never read:
two runs identical except in that flag produce identical behaviour. -/
theorem unused_flags_no_effect (ca : CEArgs) (v : ℕ) (da : DEArgs)
    (o : Option ℕ) (rank world nB : ℕ) (fs : String → Bool) :
    ceTrace { ca with valid_steps := v } rank world fs nB =
      ceTrace ca rank world fs nB ∧
    deTrace { da with output_emb_size := o } rank world fs nB =
      deTrace da rank world fs nB :=
  ⟨rfl, rfl⟩

/-- C5 (confirmed): after the last epoch both drivers save a final checkpoint
regardless of whether the final global step aligns with the save interval
(and regardless of rank), and every checkpoint written by either driver is a
directory named by the global step holding the serialized model parameter
state together with the serialized tokenizer configuration. -/
theorem final_and_shape_checkpoint :
    (∀ (ca : CEArgs) (rank world nB : ℕ) (fs : String → Bool),
       Event.saveParams (ckptDir ca.save_dir (ca.epochs * nB) ++ "/model_state.pdparams")
         ∈ ceTrace ca rank world fs nB ∧
       Event.saveTokenizer (ckptDir ca.save_dir (ca.epochs * nB))
         ∈ ceTrace ca rank world fs nB)
  ∧ (∀ (da : DEArgs) (rank world nB : ℕ) (fs : String → Bool),
       Event.saveParams (ckptDir da.save_dir (da.epochs * nB) ++ "/query_model_state.pdparams")
         ∈ deTrace da rank world fs nB ∧
       Event.saveParams (ckptDir da.save_dir (da.epochs * nB) ++ "/title_model_state.pdparams")
         ∈ deTrace da rank world fs nB ∧
       Event.saveTokenizer (ckptDir da.save_dir (da.epochs * nB))
         ∈ deTrace da rank world fs nB)
  ∧ (∀ (ca : CEArgs) (rank world nB : ℕ) (fs : String → Bool) (d : String),
       Event.saveTokenizer d ∈ ceTrace ca rank world fs nB →
       ∃ g, g ≤ ca.epochs * nB ∧ d = ckptDir ca.save_dir g ∧
         Event.saveParams (ckptDir ca.save_dir g ++ "/model_state.pdparams")
           ∈ ceTrace ca rank world fs nB)
  ∧ (∀ (da : DEArgs) (rank world nB : ℕ) (fs : String → Bool) (d : String),
       Event.saveTokenizer d ∈ deTrace da rank world fs nB →
       ∃ g, g ≤ da.epochs * nB ∧ d = ckptDir da.save_dir g ∧
         Event.saveParams (ckptDir da.save_dir g ++ "/query_model_state.pdparams")
           ∈ deTrace da rank world fs nB ∧
         Event.saveParams (ckptDir da.save_dir g ++ "/title_model_state.pdparams")
           ∈ deTrace da rank world fs nB) := by
  refine ⟨?_, ?_, ?_, ?_⟩
  · intro ca rank world nB fs
    constructor <;>
    · refine List.mem_append.2 (Or.inr ?_)
      simp [ceFinalSave]
  · intro da rank world nB fs
    refine ⟨?_, ?_, ?_⟩ <;>
    · refine List.mem_append.2 (Or.inr ?_)
      simp [deFinalSave]
  · intro ca rank world nB fs d h
    rcases List.mem_append.1 h with h | h
    · rcases List.mem_append.1 h with h | h
      · have := mem_cePreamble h
        simp [preambleLike] at this
      · obtain ⟨i, hi, hstep⟩ := mem_ceLoop.1 h
        rcases mem_ceStep_cases hstep with hcore | ⟨_, _, h'⟩ | ⟨hc, hr, h'⟩
        · simp [isCoreOp] at hcore
        · rcases h' with h' | h' <;> simp at h'
        · rcases h' with h' | h'
          · simp at h'
          · simp only [Event.saveTokenizer.injEq] at h'
            refine ⟨i + 1, by omega, h', ?_⟩
            subst hr
            exact List.mem_append.2 (Or.inl (List.mem_append.2 (Or.inr
              (mem_ceLoop.2 ⟨i, hi, (ceStep_saves ca i hc).1⟩))))
    · simp only [ceFinalSave, List.mem_cons, List.not_mem_nil, or_false] at h
      rcases h with h | h
      · simp at h
      · simp only [Event.saveTokenizer.injEq] at h
        refine ⟨ca.epochs * nB, le_rfl, h, ?_⟩
        refine List.mem_append.2 (Or.inr ?_)
        simp [ceFinalSave]
  · intro da rank world nB fs d h
    rcases List.mem_append.1 h with h | h
    · rcases List.mem_append.1 h with h | h
      · have := mem_dePreamble h
        simp [preambleLike] at this
      · obtain ⟨i, hi, hstep⟩ := mem_deLoop.1 h
        rcases mem_deStep_cases hstep with hcore | ⟨_, h'⟩ | ⟨hc, hr, h'⟩
        · simp [isCoreOp] at hcore
        · rcases h' with h' | h' <;> simp at h'
        · rcases h' with h' | h' | h' | h'
          · simp at h'
          · simp at h'
          · simp at h'
          · simp only [Event.saveTokenizer.injEq] at h'
            refine ⟨i + 1, by omega, h', ?_, ?_⟩ <;>
            · subst hr
              refine List.mem_append.2 (Or.inl (List.mem_append.2 (Or.inr
                (mem_deLoop.2 ⟨i, hi, ?_⟩))))
              first
              | exact (deStep_saves da i hc).1
              | exact (deStep_saves da i hc).2.1
    · simp only [deFinalSave, List.mem_cons, List.not_mem_nil, or_false] at h
      rcases h with h | h | h
      · simp at h
      · simp at h
      · simp only [Event.saveTokenizer.injEq] at h
        refine ⟨da.epochs * nB, le_rfl, h, ?_, ?_⟩ <;>
        · refine List.mem_append.2 (Or.inr ?_)
          simp [deFinalSave]

/-- Witness for the C5 theorem: a concrete in-loop tokenizer save of the
cross-encoder driver indeed lies in a step-named directory with its parameter
file alongside. -/
theorem final_and_shape_checkpoint_wit :
    (Event.saveTokenizer (ckptDir "./checkpoint" 2) ∈ ceTrace ceArgs1 0 1 fsNone 3) ∧
    (∃ g, g ≤ ceArgs1.epochs * 3 ∧ ckptDir "./checkpoint" 2 = ckptDir ceArgs1.save_dir g ∧
       Event.saveParams (ckptDir ceArgs1.save_dir g ++ "/model_state.pdparams")
         ∈ ceTrace ceArgs1 0 1 fsNone 3) :=
  ⟨by decide,
   final_and_shape_checkpoint.2.2.1 ceArgs1 0 1 3 fsNone
     (ckptDir "./checkpoint" 2) (by decide)⟩

/-- C7 (confirmed): both drivers load the dataset non-lazily before any batch
is pulled, and both compute the total and warmup step counts by the exact
integer arithmetic the claim states. -/
theorem dataset_steps_formula :
    (∀ (ca : CEArgs) (numEx world : ℕ),
       ceMaxTrainSteps ca numEx world =
         claimMaxTrainSteps ca.epochs numEx ca.batch_size world)
  ∧ (∀ (da : DEArgs) (numEx world : ℕ),
       deMaxTrainSteps da numEx world =
         claimMaxTrainSteps da.epochs numEx da.batch_size world)
  ∧ (∀ (ca : CEArgs) (numEx world : ℕ),
       ceWarmupSteps ca numEx world =
         claimWarmupSteps (ceMaxTrainSteps ca numEx world) ca.warmup_proportion)
  ∧ (∀ (da : DEArgs) (numEx world : ℕ),
       deWarmupSteps da numEx world =
         claimWarmupSteps (deMaxTrainSteps da numEx world) da.warmup_proportion)
  ∧ (∀ (ca : CEArgs) (world : ℕ) (fs : String → Bool),
       Event.loadDataset false ∈ cePreamble ca world fs ∧
       ∀ e ∈ cePreamble ca world fs, e ≠ Event.pullBatch)
  ∧ (∀ (da : DEArgs) (world : ℕ) (fs : String → Bool),
       Event.loadDataset false ∈ dePreamble da world fs ∧
       ∀ e ∈ dePreamble da world fs, e ≠ Event.pullBatch) := by
  refine ⟨fun _ _ _ => rfl, fun _ _ _ => rfl, fun _ _ _ => rfl, fun _ _ _ => rfl,
    ?_, ?_⟩
  · intro ca world fs
    constructor
    · unfold cePreamble
      refine List.mem_append.2 (Or.inl (List.mem_append.2 (Or.inl
        (List.mem_append.2 (Or.inl (List.mem_append.2 (Or.inr ?_)))))))
      simp
    · intro e he heq
      subst heq
      have := mem_cePreamble he
      simp [preambleLike] at this
  · intro da world fs
    constructor
    · unfold dePreamble
      refine List.mem_append.2 (Or.inl (List.mem_append.2 (Or.inl
        (List.mem_append.2 (Or.inl (List.mem_append.2 (Or.inr ?_)))))))
      simp
    · intro e he heq
      subst heq
      have := mem_dePreamble he
      simp [preambleLike] at this

/-- Witness for the C7 theorem at a concrete preamble event. -/
theorem dataset_steps_formula_wit :
    (Event.setSeed 1000 ∈ cePreamble ceArgs0 1 fsNone) ∧
    Event.setSeed 1000 ≠ Event.pullBatch :=
  ⟨by decide,
   (dataset_steps_formula.2.2.2.2.1 ceArgs0 1 fsNone).2 (Event.setSeed 1000)
     (by decide)⟩

/-- C9 (confirmed): a parameter is handed to the AdamW weight-decay predicate
exactly when its name contains neither `"bias"` nor `"norm"` as
a substring; provided parameter identifiers are distinct, the decay test on a
parameter's identifier returns the negation of that containment check. -/
theorem weight_decay_exclusion (params : List (String × String)) (n pn : String)
    (hnd : (params.map Prod.snd).Nodup) (hmem : (n, pn) ∈ params) :
    applyDecayParamFun (decayParams params) pn =
      !(pyIn "bias" n || pyIn "norm" n) := by
  have hcond : (["bias", "norm"].any fun nd => pyIn nd n) =
      (pyIn "bias" n || pyIn "norm" n) := by
    simp [List.any_cons, List.any_nil]
  by_cases hbn : (pyIn "bias" n || pyIn "norm" n) = true
  · rw [hbn]
    simp only [Bool.not_true]
    rw [Bool.eq_false_iff]
    intro hcontains
    unfold applyDecayParamFun decayParams at hcontains
    replace hcontains := List.elem_iff.1 hcontains
    simp only [List.mem_map, List.mem_filter] at hcontains
    obtain ⟨⟨n', pn'⟩, ⟨hmem', hkeep⟩, heq⟩ := hcontains
    simp only at heq
    subst heq
    have hinj := List.inj_on_of_nodup_map hnd hmem' hmem rfl
    rw [hinj] at hkeep
    simp only [hcond] at hkeep
    rw [hbn] at hkeep
    simp at hkeep
  · rw [Bool.not_eq_true] at hbn
    rw [hbn]
    simp only [Bool.not_false]
    unfold applyDecayParamFun decayParams
    refine List.elem_iff.2 (List.mem_map.2 ⟨(n, pn), List.mem_filter.2 ⟨hmem, ?_⟩, rfl⟩)
    simp [hcond, hbn]

/-- Witness for the C9 theorem on a concrete parameter list. -/
theorem weight_decay_exclusion_wit :
    ((params0.map Prod.snd).Nodup ∧
     ("encoder.layers.0.linear.weight", "p1") ∈ params0) ∧
    applyDecayParamFun (decayParams params0) "p1" =
      !(pyIn "bias" "encoder.layers.0.linear.weight" ||
        pyIn "norm" "encoder.layers.0.linear.weight") :=
  ⟨⟨by decide, by decide⟩,
   weight_decay_exclusion params0 "encoder.layers.0.linear.weight" "p1"
     (by decide) (by decide)⟩

/-- C8 (confirmed, schedulers modelled from the spec): for either configured
schedule (linear decay with warmup for the dual-encoder, polynomial decay
with power one and end value zero for the cross-encoder), the step-0 value is
the base rate scaled by the warmup ramp (zero when warmup is nonempty), the
ramp is linear up to the base rate at the end of warmup, the rate then decays
monotonically, and it reaches the configured end value (zero) at the final
training step. -/
theorem lr_schedule_shape (b : ℚ) (t w : ℕ) (hw : 0 < w) (hwt : w < t) (hb : 0 ≤ b) :
    (linearDecayWithWarmup b t w 0 = 0 ∧ polyDecayWithWarmup b 0 t w 0 = 0)
  ∧ (∀ s : ℕ, s ≤ w →
       linearDecayWithWarmup b t w s = b * ((s : ℚ) / (w : ℚ)) ∧
       polyDecayWithWarmup b 0 t w s = b * ((s : ℚ) / (w : ℚ)))
  ∧ (linearDecayWithWarmup b t w w = b ∧ polyDecayWithWarmup b 0 t w w = b)
  ∧ (∀ s₁ s₂ : ℕ, w ≤ s₁ → s₁ ≤ s₂ → s₂ ≤ t →
       linearDecayWithWarmup b t w s₂ ≤ linearDecayWithWarmup b t w s₁ ∧
       polyDecayWithWarmup b 0 t w s₂ ≤ polyDecayWithWarmup b 0 t w s₁)
  ∧ (linearDecayWithWarmup b t w t = 0 ∧ polyDecayWithWarmup b 0 t w t = 0) := by
  have hwQ : (0 : ℚ) < (w : ℚ) := by exact_mod_cast hw
  have hwtQ : (w : ℚ) < (t : ℚ) := by exact_mod_cast hwt
  have hden : (0 : ℚ) < (t : ℚ) - (w : ℚ) := sub_pos.2 hwtQ
  have hmidl : linearDecayWithWarmup b t w w = b := by
    unfold linearDecayWithWarmup
    rw [if_neg (lt_irrefl w), div_self hden.ne']
    norm_num
  have hmidp : polyDecayWithWarmup b 0 t w w = b := by
    unfold polyDecayWithWarmup
    rw [if_neg (lt_irrefl w), if_neg (by omega : ¬ t < w), div_self hden.ne']
    norm_num
  refine ⟨⟨?_, ?_⟩, ?_, ⟨hmidl, hmidp⟩, ?_, ⟨?_, ?_⟩⟩
  · unfold linearDecayWithWarmup
    rw [if_pos hw]
    simp
  · unfold polyDecayWithWarmup
    rw [if_pos hw]
    simp
  · intro s hs
    rcases eq_or_lt_of_le hs with rfl | hlt
    · rw [hmidl, hmidp, div_self hwQ.ne']
      norm_num
    · constructor
      · unfold linearDecayWithWarmup
        rw [if_pos hlt]
      · unfold polyDecayWithWarmup
        rw [if_pos hlt]
  · intro s1 s2 h1 h2 h3
    have hcast : ((t : ℚ) - (s2 : ℚ)) / ((t : ℚ) - (w : ℚ))
        ≤ ((t : ℚ) - (s1 : ℚ)) / ((t : ℚ) - (w : ℚ)) := by
      apply div_le_div_of_nonneg_right ?_ hden.le
      · exact sub_le_sub_left (by exact_mod_cast h2) _
    constructor
    · unfold linearDecayWithWarmup
      rw [if_neg (by omega : ¬ s2 < w), if_neg (by omega : ¬ s1 < w)]
      exact mul_le_mul_of_nonneg_left (max_le_max le_rfl hcast) hb
    · unfold polyDecayWithWarmup
      rw [if_neg (by omega : ¬ s2 < w), if_neg (by omega : ¬ s1 < w),
        if_neg (by omega : ¬ t < s2), if_neg (by omega : ¬ t < s1)]
      simp only [sub_zero, add_zero]
      exact mul_le_mul_of_nonneg_left hcast hb
  · unfold linearDecayWithWarmup
    rw [if_neg (by omega : ¬ t < w)]
    simp
  · unfold polyDecayWithWarmup
    rw [if_neg (by omega : ¬ t < w), if_neg (lt_irrefl t)]
    simp

/-- Witness for the C8 theorem at base rate 1, ten total steps, two warmup
steps, evaluating the schedule at concrete steps. -/
theorem lr_schedule_shape_wit :
    (0 < 2 ∧ 2 < 10 ∧ (0 : ℚ) ≤ 1) ∧
    linearDecayWithWarmup 1 10 2 0 = 0 ∧
    polyDecayWithWarmup 1 0 10 2 0 = 0 ∧
    linearDecayWithWarmup 1 10 2 2 = 1 ∧
    linearDecayWithWarmup 1 10 2 7 ≤ linearDecayWithWarmup 1 10 2 3 ∧
    polyDecayWithWarmup 1 0 10 2 7 ≤ polyDecayWithWarmup 1 0 10 2 3 ∧
    linearDecayWithWarmup 1 10 2 10 = 0 ∧
    polyDecayWithWarmup 1 0 10 2 10 = 0 := by
  have h := lr_schedule_shape 1 10 2 (by norm_num) (by norm_num) (by norm_num)
  exact ⟨⟨by norm_num, by norm_num, by norm_num⟩, h.1.1, h.1.2, h.2.2.1.1,
    (h.2.2.2.1 3 7 (by norm_num) (by norm_num) (by norm_num)).1,
    (h.2.2.2.1 3 7 (by norm_num) (by norm_num) (by norm_num)).2,
    h.2.2.2.2.1, h.2.2.2.2.2⟩
